import Mathlib

/-!
Verification of the Kyber VPN backend core against its specification.

The development shallowly embeds the Python modules
`app/crypto/kyber.py`, `app/crypto/symmetric.py`, `app/network/vpn.py`,
`app/chat/messaging.py`, `app/core/security.py` and
`app/api/routes/chat.py`.  Pure functions become Lean functions, the
mutable service objects become explicit state records threaded through
the operations, and nondeterministic inputs of the source (random bytes,
uuid4 identifiers, wall-clock times, injected exceptions) become explicit
parameters.  Third-party primitives (RSA/OAEP, AES-GCM, bcrypt, JWT) are
modelled at their interface, as noted on each definition.
-/

namespace Kyber

/-- The three parameter sets accepted by `KyberManager.__init__`
(`kyber512`, `kyber768`, `kyber1024`). -/
inductive Level
| kyber512
| kyber768
| kyber1024
deriving DecidableEq

/-- Source `KyberManager.__init__`: the RSA key size (bits) used to simulate each
Kyber parameter set (the `key_sizes` dict in `kyber.py`). -/
def key_size : Level → Nat
| .kyber512 => 2048
| .kyber768 => 3072
| .kyber1024 => 4096

/-- The numeric fields of the static table returned by
`KyberManager.get_algorithm_details` (string metadata fields omitted). -/
structure AlgorithmDetails where
  claimed_nist_level : Nat
  public_key_length : Nat
  secret_key_length : Nat
  ciphertext_length : Nat
  shared_key_length : Nat
deriving DecidableEq

/-- Source `KyberManager.get_algorithm_details`: the published CRYSTALS-Kyber
sizes, transcribed verbatim from the `details` dict in `kyber.py`. -/
def get_algorithm_details : Level → AlgorithmDetails
| .kyber512 =>
  { claimed_nist_level := 1
    public_key_length := 800
    secret_key_length := 1632
    ciphertext_length := 768
    shared_key_length := 32 }
| .kyber768 =>
  { claimed_nist_level := 3
    public_key_length := 1184
    secret_key_length := 2400
    ciphertext_length := 1088
    shared_key_length := 32 }
| .kyber1024 =>
  { claimed_nist_level := 5
    public_key_length := 1568
    secret_key_length := 3168
    ciphertext_length := 1568
    shared_key_length := 32 }

/-- Byte length of a DER TLV whose content is `n` bytes: one tag byte plus
a one-byte (`n < 128`), two-byte (`n < 256`) or three-byte length field.
Models the DER serialization performed by
`public_key.public_bytes(Encoding.DER, SubjectPublicKeyInfo)`. -/
def derTL (n : Nat) : Nat :=
  if n < 128 then 2 + n else if n < 256 then 3 + n else 4 + n

/-- Byte length of the DER `SubjectPublicKeyInfo` produced by
`generate_keypair` for an RSA modulus of `bits` bits with public exponent
65537: INTEGER modulus (`bits/8` bytes plus a forced leading zero, since
the top bit of the modulus is set), INTEGER 65537 (3 content bytes),
wrapped in SEQUENCE, BIT STRING (one unused-bits byte), and an outer
SEQUENCE with the rsaEncryption AlgorithmIdentifier (9-byte OID plus
NULL). -/
def rsa_spki_der_length (bits : Nat) : Nat :=
  let modulusInt := derTL (bits / 8 + 1)
  let exponentInt := derTL 3
  let rsaPublicKey := derTL (modulusInt + exponentInt)
  let subjectBitString := derTL (rsaPublicKey + 1)
  let algorithmId := derTL (derTL 9 + derTL 0)
  derTL (subjectBitString + algorithmId)

/-- Source `KyberManager.encapsulate`: the shared key is `os.urandom(32)`,
so its byte length is 32 for every level. -/
def encapsulate_shared_key_length : Nat := 32

/-- Source `KyberManager.encapsulate`: the ciphertext is an RSA-OAEP encryption
under the simulated keypair, whose length is exactly the modulus byte
length `key_size / 8`. -/
def encapsulate_ciphertext_length (l : Level) : Nat := key_size l / 8

end Kyber

namespace AEAD

/-- Bytewise XOR of a message against a keystream starting at stream
position `i`.  Models the CTR layer of the `cryptography` library's
AES-GCM primitive, with the AES-derived keystream abstracted as the
function `ks` from stream position to keystream byte. -/
def xorKeystream (ks : Nat → Nat) : Nat → List Nat → List Nat
| _, [] => []
| i, b :: bs => (b ^^^ ks i) :: xorKeystream ks (i + 1) bs

/-- Interface model of the `cryptography.hazmat` `AESGCM` primitive used
by `symmetric.py` (library code, not part of the repository): a keystream
derived from key and nonce, and a 16-byte authentication tag computed
over the associated data and the ciphertext. -/
structure GCMPrim where
  keystream : List Nat → List Nat → Nat → Nat
  tag : List Nat → List Nat → Option (List Nat) → List Nat → List Nat
  tag_len : ∀ k n a c, (tag k n a c).length = 16

/-- Source `AESGCM(key).encrypt(nonce, plaintext, aad)`: CTR-encrypt the
plaintext and append the 16-byte tag (the library returns
ciphertext‖tag as one buffer). -/
def gcm_encrypt (g : GCMPrim) (key nonce plaintext : List Nat)
    (aad : Option (List Nat)) : List Nat :=
  let ct := xorKeystream (g.keystream key nonce) 0 plaintext
  ct ++ g.tag key nonce aad ct

/-- Source `AESGCM(key).decrypt(nonce, data, aad)`: split off the trailing
16-byte tag, recompute it over the associated data and ciphertext, and
return the CTR-decrypted plaintext only when the tags agree (`InvalidTag`
— modelled as `none` — otherwise). -/
def gcm_decrypt (g : GCMPrim) (key nonce data : List Nat)
    (aad : Option (List Nat)) : Option (List Nat) :=
  if data.length < 16 then none
  else
    let ct := data.take (data.length - 16)
    let tg := data.drop (data.length - 16)
    if tg = g.tag key nonce aad ct then
      some (xorKeystream (g.keystream key nonce) 0 ct)
    else none

/-- The state of an `AESGCMCipher` instance from `symmetric.py`: the
32-byte key it was constructed with. -/
structure AESGCMCipher where
  key : List Nat

/-- Source `AESGCMCipher.__init__` with an explicit key: raises `ValueError`
unless the key is exactly 32 bytes. -/
def AESGCMCipher.init (key : List Nat) : Except String AESGCMCipher :=
  if key.length ≠ 32 then
    .error "La clave debe tener 32 bytes (256 bits) para AES-256"
  else .ok ⟨key⟩

/-- The dict returned by `AESGCMCipher.encrypt`: the fresh 12-byte nonce
and the ciphertext‖tag buffer. -/
structure EncryptResult where
  nonce : List Nat
  ciphertext : List Nat
deriving DecidableEq

/-- Source `AESGCMCipher.encrypt(plaintext, associated_data)`: draws a fresh
nonce (`os.urandom(12)`, passed here as the explicit parameter `nonce`)
and returns it with the library's ciphertext‖tag. -/
def AESGCMCipher.encrypt (c : AESGCMCipher) (g : GCMPrim)
    (nonce plaintext : List Nat) (aad : Option (List Nat)) : EncryptResult :=
  { nonce := nonce, ciphertext := gcm_encrypt g c.key nonce plaintext aad }

/-- Source `AESGCMCipher.decrypt(nonce, ciphertext, associated_data)`: returns
the plaintext, turning the library's `InvalidTag` into a `ValueError`
(modelled as `Except.error`). -/
def AESGCMCipher.decrypt (c : AESGCMCipher) (g : GCMPrim)
    (nonce ciphertext : List Nat) (aad : Option (List Nat)) :
    Except String (List Nat) :=
  match gcm_decrypt g c.key nonce ciphertext aad with
  | some pt => .ok pt
  | none => .error "Autenticación fallida: los datos pueden haber sido manipulados"

end AEAD

namespace VPN

/-- One entry of `settings.VPN_SERVERS` (`config.py`); fields the VPN
manager reads. -/
structure Server where
  id : String
  name : String
  ip : String
  port : Nat
  latency : Nat
deriving DecidableEq

/-- Source `settings.VPN_SERVERS` from `config.py`. -/
def VPN_SERVERS : List Server :=
  [ { id := "server1", name := "Servidor Principal", ip := "192.168.1.1",
      port := 1194, latency := 25 },
    { id := "server2", name := "Servidor Respaldo", ip := "192.168.1.2",
      port := 1194, latency := 35 },
    { id := "server3", name := "Servidor Internacional", ip := "192.168.1.3",
      port := 1194, latency := 50 } ]

/-- Source `settings.TUN_NAME` default from `config.py`. -/
def TUN_NAME : String := "tun0"

/-- Source `str(subnet[2])` for `settings.VPN_SUBNET = "10.8.0.0/24"`: the
address the manager assigns in `connect`. -/
def ASSIGNED_VPN_IP : String := "10.8.0.2"

/-- The mutable fields of a `VPNManager` instance (`vpn.py`).
`kyber_keypair` records whether the embedded `KyberManager` holds a
generated keypair (`self._keypair`); `status_task` whether the background
status task is running; `aes_key` the key of `self.aes`; `tun` the name
of the `TunManager` held in `self.tun`. -/
structure VpnState where
  connected : Bool
  server : Option Server
  connection_time : Nat
  vpn_ip : Option String
  bytes_sent : Nat
  bytes_received : Nat
  latency : Nat
  aes_key : Option (List Nat)
  tun : Option String
  status_task : Bool
  kyber_keypair : Bool
deriving DecidableEq

/-- Source `VPNManager.__init__`: the freshly constructed manager. -/
def initVpnState : VpnState :=
  { connected := false, server := none, connection_time := 0, vpn_ip := none,
    bytes_sent := 0, bytes_received := 0, latency := 0, aes_key := none,
    tun := none, status_task := false, kyber_keypair := false }

/-- The dict returned by `VPNManager.connect` (`vpnIp` key present only on
success). -/
structure ConnectResult where
  success : Bool
  message : String
  vpnIp : Option String
deriving DecidableEq

/-- The dict returned by `VPNManager.disconnect`. -/
structure SimpleResult where
  success : Bool
  message : String
deriving DecidableEq

/-- The `VpnStatus` schema returned by `VPNManager.get_status`. -/
structure VpnStatus where
  connected : Bool
  uptime : Nat
  bytesReceived : Nat
  bytesSent : Nat
  latency : Nat
  vpnIp : Option String
  server_id : Option String
deriving DecidableEq

/-- Source `VPNManager._cleanup`: cancel and join the status task, drop the TUN
manager, and reset every connection field to its disconnected value (the
Kyber manager's stored keypair is not touched by `_cleanup`). -/
def cleanup (st : VpnState) : VpnState :=
  { st with
    connected := false, server := none, connection_time := 0,
    vpn_ip := none, bytes_sent := 0, bytes_received := 0, latency := 0,
    aes_key := none, tun := none, status_task := false }

/-- The statements inside `connect`'s `try` block at which an exception
can be raised, in program order: RSA keypair generation, `encapsulate`,
the `AESGCMCipher` constructor, the `TunManager` constructor,
`ipaddress.IPv4Network(settings.VPN_SUBNET)`, and the `subnet[2]`
indexing. -/
inductive FailStep
| genKeypair
| encapsulate
| cipherInit
| tunInit
| subnetParse
| addrIndex
deriving DecidableEq

/-- The server lookup loop at the top of `VPNManager.connect`. -/
def findServer (server_id : String) : Option Server :=
  VPN_SERVERS.find? (fun s => s.id == server_id)

/-- The manager's state at the moment a given statement of `connect`'s
`try` block raises: exactly the `self.*` assignments preceding that
statement have happened (`generate_keypair` stores the keypair in the
Kyber manager before `encapsulate` runs; `self.aes` is assigned before
the `TunManager` constructor runs; `self.tun` before the subnet is
parsed; `self.vpn_ip` is assigned only after `subnet[2]` succeeds). -/
def stateBeforeFail (st : VpnState) (shared_key : List Nat) :
    FailStep → VpnState
| .genKeypair => st
| .encapsulate => { st with kyber_keypair := true }
| .cipherInit => { st with kyber_keypair := true }
| .tunInit => { st with kyber_keypair := true, aes_key := some shared_key }
| .subnetParse =>
  { st with
    kyber_keypair := true, aes_key := some shared_key,
    tun := some TUN_NAME }
| .addrIndex =>
  { st with
    kyber_keypair := true, aes_key := some shared_key,
    tun := some TUN_NAME }

/-- Source `VPNManager.connect(server_id)`.  `shared_key` is the random secret
produced by `encapsulate`, `now` the value of `time.time()`, and `fail`
injects an exception at the given statement of the `try` block (`none`
for the failure-free run); on an exception the handler runs
`self._cleanup()` and returns the error dict. -/
def connect (st : VpnState) (server_id : String) (shared_key : List Nat)
    (now : Nat) (fail : Option FailStep) : ConnectResult × VpnState :=
  if st.connected then
    ({ success := false, message := "Ya existe una conexión VPN activa",
       vpnIp := none }, st)
  else
    match findServer server_id with
    | none =>
      ({ success := false,
         message := "Servidor con ID " ++ server_id ++ " no encontrado",
         vpnIp := none }, st)
    | some server =>
      match fail with
      | some fs =>
        ({ success := false, message := "Error al establecer conexión",
           vpnIp := none }, cleanup (stateBeforeFail st shared_key fs))
      | none =>
        ({ success := true,
           message := "Conexión establecida con " ++ server.name,
           vpnIp := some ASSIGNED_VPN_IP },
         { st with
           kyber_keypair := true, aes_key := some shared_key,
           tun := some TUN_NAME, vpn_ip := some ASSIGNED_VPN_IP,
           server := some server, connected := true, connection_time := now,
           bytes_sent := 0, bytes_received := 0, latency := server.latency,
           status_task := true })

/-- Source `VPNManager.disconnect`: a no-op success when no connection is
active, otherwise `_cleanup` followed by a success result. -/
def disconnect (st : VpnState) : SimpleResult × VpnState :=
  if st.connected = false then
    ({ success := true, message := "No hay conexión activa" }, st)
  else
    ({ success := true, message := "Desconexión exitosa" }, cleanup st)

/-- Source `VPNManager.get_status` at wall-clock time `now`: the all-zero
snapshot when disconnected, the live counters otherwise. -/
def get_status (st : VpnState) (now : Nat) : VpnStatus :=
  if st.connected = false then
    { connected := false, uptime := 0, bytesReceived := 0, bytesSent := 0,
      latency := 0, vpnIp := none, server_id := none }
  else
    { connected := true, uptime := now - st.connection_time,
      bytesReceived := st.bytes_received, bytesSent := st.bytes_sent,
      latency := st.latency, vpnIp := st.vpn_ip,
      server_id := st.server.map Server.id }

/-- The snapshot `get_status` reports whenever the manager is
disconnected. -/
def disconnectedStatus : VpnStatus :=
  { connected := false, uptime := 0, bytesReceived := 0, bytesSent := 0,
    latency := 0, vpnIp := none, server_id := none }

end VPN

namespace Chat

/-- Python dict assignment `d[k] = v` on a dict represented as an
insertion-ordered association list: replace the value at an existing key,
append the binding otherwise. -/
def dictSet {α : Type} : List (String × α) → String → α → List (String × α)
| [], k, v => [(k, v)]
| (k', v') :: rest, k, v =>
  if k' == k then (k, v) :: rest else (k', v') :: dictSet rest k v

/-- One record of `MessagingService._users_db`. -/
structure UserRecord where
  username : String
  display_name : String
  hashed_password : String
deriving DecidableEq

/-- The `User` schema (`schemas.py`) as stored in
`MessagingService.connected_users`. -/
structure User where
  username : String
  display_name : String
  is_online : Bool
  vpn_ip : Option String
  last_seen : Option Nat
deriving DecidableEq

/-- The `ChatRoom` schema (`schemas.py`). -/
structure ChatRoom where
  id : String
  name : Option String
  participants : List String
  is_group : Bool
  encryption_key : Option String
deriving DecidableEq

/-- The message dict built by `MessagingService.create_message` and by
`get_room_messages` (timestamps abstracted to `Nat`). -/
structure MessageDict where
  id : String
  sender : String
  room_id : String
  content : String
  timestamp : Nat
  read_by : List String
deriving DecidableEq

/-- The JWT payload built by `authenticate_user` and signed by
`create_access_token` (`security.py`): claims `sub`, `session_id`,
`vpn_ip` and the `exp` timestamp in seconds.  Signing under the
configured `SECRET_KEY` is modelled by the payload record itself; only
tokens produced by `create_access_token` exist in the model. -/
structure Jwt where
  sub : String
  session_id : String
  vpn_ip : String
  exp : Nat
deriving DecidableEq

/-- The dict returned by `MessagingService.authenticate_user`
(`user_data` reduced to the `(username, display_name)` pair it carries). -/
structure AuthResult where
  success : Bool
  message : String
  token : Option Jwt
  user_data : Option (String × String)
deriving DecidableEq

/-- The dict returned by `MessagingService.register_user`. -/
structure RegisterResult where
  success : Bool
  message : String
deriving DecidableEq

/-- The mutable state of the messaging subsystem: the fields of the
`MessagingService` instance (`messaging.py`) together with the
module-level `active_connections` dict of `chat.py`, reduced to the set
of session ids holding a live websocket. -/
structure MsgState where
  users_db : List (String × UserRecord)
  user_sessions : List (String × String)
  vpn_sessions : List (String × String)
  connected_users : List (String × User)
  chat_rooms : List (String × ChatRoom)
  active_connections : List String
deriving DecidableEq

/-- Source `settings.ACCESS_TOKEN_EXPIRE_MINUTES` (`config.py`): 8 days. -/
def ACCESS_TOKEN_EXPIRE_MINUTES : Nat := 60 * 24 * 8

/-- The network address of `settings.VPN_SUBNET = "10.8.0.0/24"` as a
32-bit integer. -/
def VPN_SUBNET_ADDR : Nat := ((10 * 256 + 8) * 256 + 0) * 256 + 0

/-- Prefix length of `settings.VPN_SUBNET`. -/
def VPN_SUBNET_PREFIX : Nat := 24

/-- Source `ip in ipaddress.ip_network(settings.VPN_SUBNET)` for an IPv4
address given as a 32-bit integer: the top `VPN_SUBNET_PREFIX` bits
agree with the network address. -/
def inVpnSubnet (ip : Nat) : Bool :=
  ip / 2 ^ (32 - VPN_SUBNET_PREFIX) == VPN_SUBNET_ADDR / 2 ^ (32 - VPN_SUBNET_PREFIX)

/-- Split a character list at the dots, keeping empty components, as
`"a.b.c".split(".")` does. -/
def splitDots : List Char → List (List Char)
| [] => [[]]
| c :: cs =>
  if c = '.' then [] :: splitDots cs
  else
    match splitDots cs with
    | [] => [[c]]
    | g :: gs => (c :: g) :: gs

/-- One dotted-quad component as `ipaddress.ip_address` accepts it: one
to three decimal digits, no leading zero, value at most 255. -/
def parseOctet (cs : List Char) : Option Nat :=
  if cs.length = 0 ∨ 3 < cs.length then none
  else if ¬ cs.all Char.isDigit then none
  else if 1 < cs.length ∧ cs.headD ' ' = '0' then none
  else
    let v := cs.foldl (fun acc c => acc * 10 + (c.toNat - 48)) 0
    if v ≤ 255 then some v else none

/-- Source `ipaddress.ip_address` on an IPv4 dotted-quad literal, as a 32-bit
integer (`ValueError` modelled as `none`; IPv6 literals, which
`ip_address` also accepts but which can never lie inside the configured
IPv4 subnet, are outside the model). -/
def parseIPv4 (s : String) : Option Nat :=
  match (splitDots s.data).mapM parseOctet with
  | some [a, b, c, d] => some (((a * 256 + b) * 256 + c) * 256 + d)
  | _ => none

/-- Source `True` exactly when `authenticate_user`'s address gate rejects the
claimed address: the literal does not parse, or the address lies outside
the configured VPN subnet. -/
def addressRejected (vpn_ip : String) : Bool :=
  match parseIPv4 vpn_ip with
  | none => true
  | some ip => !inVpnSubnet ip

/-- Source `MessagingService._users_db` as initialised in `__init__`, with the
bcrypt hash `get_password_hash` abstracted as the parameter `h`. -/
def users_db_init (h : String → String) : List (String × UserRecord) :=
  [ ("usuario1",
     { username := "usuario1", display_name := "Usuario Demo 1",
       hashed_password := h "password1" }),
    ("usuario2",
     { username := "usuario2", display_name := "Usuario Demo 2",
       hashed_password := h "password2" }) ]

/-- The default room built by `MessagingService._create_default_room`. -/
def default_room : ChatRoom :=
  { id := "general", name := some "Canal General",
    participants := ["usuario1", "usuario2"], is_group := true,
    encryption_key := none }

/-- The state of a freshly constructed `MessagingService` together with
an empty `active_connections` dict. -/
def initService (h : String → String) : MsgState :=
  { users_db := users_db_init h, user_sessions := [], vpn_sessions := [],
    connected_users := [], chat_rooms := [("general", default_room)],
    active_connections := [] }

/-- Source `MessagingService.register_user`, with the bcrypt hash abstracted as
`h`: reject a taken username, otherwise store the salted hash and append
the user to the default room's participant list. -/
def register_user (h : String → String) (st : MsgState)
    (username password display_name : String) : RegisterResult × MsgState :=
  if (st.users_db.lookup username).isSome then
    ({ success := false, message := "El nombre de usuario ya está en uso" }, st)
  else
    let st1 :=
      { st with
        users_db := dictSet st.users_db username
          { username := username, display_name := display_name,
            hashed_password := h password } }
    let st2 :=
      match st1.chat_rooms.lookup "general" with
      | none => st1
      | some room =>
        if username ∈ room.participants then st1
        else
          { st1 with
            chat_rooms := dictSet st1.chat_rooms "general"
              { room with participants := room.participants ++ [username] } }
    ({ success := true, message := "Usuario registrado correctamente" }, st2)

/-- Source `MessagingService.authenticate_user`, with bcrypt's
`verify_password` abstracted as `vp`, the fresh `uuid4` session id as
`fresh_session`, and `datetime.utcnow()` (seconds) as `now`.  The checks
run in source order: address gate, username lookup, password check; on
success a token expiring after `ACCESS_TOKEN_EXPIRE_MINUTES` is issued
and the session/address/user registries are updated. -/
def authenticate_user (vp : String → String → Bool) (st : MsgState)
    (username password vpn_ip fresh_session : String) (now : Nat) :
    AuthResult × MsgState :=
  match parseIPv4 vpn_ip with
  | none =>
    ({ success := false, message := "Dirección IP inválida", token := none,
       user_data := none }, st)
  | some ip =>
    if !inVpnSubnet ip then
      ({ success := false,
         message := "Autenticación solo permitida a través de la VPN",
         token := none, user_data := none }, st)
    else
      match st.users_db.lookup username with
      | none =>
        ({ success := false, message := "Usuario no encontrado",
           token := none, user_data := none }, st)
      | some ud =>
        if !vp password ud.hashed_password then
          ({ success := false, message := "Credenciales incorrectas",
             token := none, user_data := none }, st)
        else
          let tok : Jwt :=
            { sub := username, session_id := fresh_session, vpn_ip := vpn_ip,
              exp := now + ACCESS_TOKEN_EXPIRE_MINUTES * 60 }
          let newUsers :=
            match st.connected_users.lookup username with
            | none =>
              dictSet st.connected_users username
                { username := username, display_name := ud.display_name,
                  is_online := true, vpn_ip := some vpn_ip,
                  last_seen := some now }
            | some u =>
              dictSet st.connected_users username
                { u with is_online := true, vpn_ip := some vpn_ip }
          ({ success := true, message := "Autenticación exitosa",
             token := some tok,
             user_data := some (username, ud.display_name) },
           { st with
             user_sessions := dictSet st.user_sessions fresh_session username,
             vpn_sessions := dictSet st.vpn_sessions vpn_ip username,
             connected_users := newUsers })

/-- Source `verify_token` (`security.py`): `jwt.decode` under the configured
secret succeeds on a token issued by `create_access_token` until its
`exp` claim lies in the past (`ExpiredSignatureError`, returned as
`None`). -/
def verify_token (tok : Jwt) (now : Nat) : Option Jwt :=
  if tok.exp < now then none else some tok

/-- The session-validity gate of the `chat_websocket` endpoint
(`chat.py`): the connection is accepted exactly when the path's
`session_id` is a key of `messaging_service.user_sessions`; no expiry or
token check is performed. -/
def chat_websocket_accepts (st : MsgState) (session_id : String) : Bool :=
  (st.user_sessions.lookup session_id).isSome

/-- Source `MessagingService.create_message`: resolve the session (the Python
guard `if not username` also rejects a session bound to the empty
username), require the room to exist and the sender to participate, and
build the message dict with the fresh `uuid4` id `fresh_id` and
timestamp `now`.  The method mutates no service state, so only the
optional message is returned. -/
def create_message (st : MsgState) (session_id room_id content : String)
    (fresh_id : String) (now : Nat) : Option MessageDict :=
  match st.user_sessions.lookup session_id with
  | none => none
  | some username =>
    if username = "" then none
    else
      match st.chat_rooms.lookup room_id with
      | none => none
      | some room =>
        if username ∉ room.participants then none
        else
          some { id := fresh_id, sender := username, room_id := room_id,
                 content := content, timestamp := now,
                 read_by := [username] }

/-- The three fabricated messages of
`MessagingService.get_room_messages`, with the `uuid4` ids and the
`datetime.now()`-derived timestamps abstracted as parameters. -/
def sample_messages (room_id : String) (id1 id2 id3 : String)
    (t1 t2 t3 : Nat) : List MessageDict :=
  [ { id := id1, sender := "usuario1", room_id := room_id,
      content := "Hola a todos, ¿cómo están?", timestamp := t1,
      read_by := ["usuario1"] },
    { id := id2, sender := "usuario2", room_id := room_id,
      content := "Todo bien por aquí, la conexión VPN está funcionando muy bien",
      timestamp := t2, read_by := ["usuario1", "usuario2"] },
    { id := id3, sender := "usuario1", room_id := room_id,
      content := "¡Excelente! La criptografía post-cuántica hace que sea muy seguro",
      timestamp := t3, read_by := ["usuario1"] } ]

/-- Source `MessagingService.get_room_messages(room_id, limit)`: the slice
`sample_messages[:limit]`; the service state is taken as an argument
only to witness that no stored history is consulted. -/
def get_room_messages (st : MsgState) (room_id : String) (limit : Nat)
    (id1 id2 id3 : String) (t1 t2 t3 : Nat) : List MessageDict :=
  (sample_messages room_id id1 id2 id3 t1 t2 t3).take limit

/-- Source `broadcast_to_room` (`chat.py`): for each participant of the
message's room, every entry of `user_sessions` bound to that participant
whose session holds a live websocket and is not the excluded session
receives a send; a raising sink (`failing` true) is caught by the
per-send `try`/`except` and only drops its own delivery.  Returns the
session ids to which the message is actually delivered, in send order. -/
def broadcast_to_room (st : MsgState) (msg : MessageDict)
    (exclude : Option String) (failing : String → Bool) : List String :=
  match st.chat_rooms.lookup msg.room_id with
  | none => []
  | some room =>
    ((room.participants.map (fun participant =>
        (st.user_sessions.filter (fun p =>
            p.2 == participant && st.active_connections.contains p.1 &&
              !(some p.1 == exclude))).map Prod.fst)).flatten).filter
      (fun sid => !failing sid)

end Chat

/-- C1 counterexample: at level kyber512 the ciphertext length reported
by `get_algorithm_details` (768, the published Kyber figure) differs
from the byte length of the ciphertext `encapsulate` actually produces
(an RSA-OAEP ciphertext of `key_size / 8 = 256` bytes), so the reported
sizes do not equal the produced sizes. -/
theorem c1_counterexample :
    (Kyber.get_algorithm_details Kyber.Level.kyber512).ciphertext_length ≠
      Kyber.encapsulate_ciphertext_length Kyber.Level.kyber512 := by
  decide

/-- C1 (amended): for every parameter level, the shared-secret length
reported by `get_algorithm_details` (32) equals the length `encapsulate`
produces, but the reported ciphertext length differs from the RSA-OAEP
ciphertext length `key_size / 8` actually produced, and the reported
public-key length differs from the DER `SubjectPublicKeyInfo` length of
the RSA public key `generate_keypair` actually produces. -/
theorem c1_amended (l : Kyber.Level) :
    (Kyber.get_algorithm_details l).shared_key_length =
        Kyber.encapsulate_shared_key_length ∧
      (Kyber.get_algorithm_details l).ciphertext_length ≠
        Kyber.encapsulate_ciphertext_length l ∧
      (Kyber.get_algorithm_details l).public_key_length ≠
        Kyber.rsa_spki_der_length (Kyber.key_size l) := by
  cases l <;> exact ⟨rfl, by decide, by decide⟩

/-- C2: whenever any statement of `connect`'s `try` block raises (the
server having been resolved), `connect` reports failure and the handler's
`_cleanup` rolls the manager back completely: the status task is
cancelled and cleared, the TUN resource released, the cipher dropped, and
every connection field is back at its disconnected value, so any
subsequent `get_status` sees the all-zero disconnected snapshot. -/
theorem c2_connect_failure_rollback (st : VPN.VpnState) (server_id : String)
    (shared_key : List Nat) (now : Nat) (fs : VPN.FailStep)
    (hconn : st.connected = false)
    (hsrv : (VPN.findServer server_id).isSome = true) :
    (VPN.connect st server_id shared_key now (some fs)).1.success = false ∧
      (VPN.connect st server_id shared_key now (some fs)).2.connected = false ∧
      (VPN.connect st server_id shared_key now (some fs)).2.server = none ∧
      (VPN.connect st server_id shared_key now (some fs)).2.connection_time = 0 ∧
      (VPN.connect st server_id shared_key now (some fs)).2.vpn_ip = none ∧
      (VPN.connect st server_id shared_key now (some fs)).2.bytes_sent = 0 ∧
      (VPN.connect st server_id shared_key now (some fs)).2.bytes_received = 0 ∧
      (VPN.connect st server_id shared_key now (some fs)).2.latency = 0 ∧
      (VPN.connect st server_id shared_key now (some fs)).2.aes_key = none ∧
      (VPN.connect st server_id shared_key now (some fs)).2.tun = none ∧
      (VPN.connect st server_id shared_key now (some fs)).2.status_task = false ∧
      ∀ t : Nat,
        VPN.get_status (VPN.connect st server_id shared_key now (some fs)).2 t =
          VPN.disconnectedStatus := by
  obtain ⟨s, hs⟩ := Option.isSome_iff_exists.mp hsrv
  simp [VPN.connect, hconn, hs, VPN.cleanup, VPN.get_status,
    VPN.disconnectedStatus]

/-- C2 witness: injecting a failure at the TUN-constructor statement of a
`connect` from the pristine manager to `server1`. -/
theorem c2_connect_failure_rollback_witness :
    (VPN.connect VPN.initVpnState ("server1") ([0]) 7
        (some VPN.FailStep.tunInit)).1.success = false ∧
      VPN.get_status
          (VPN.connect VPN.initVpnState ("server1") ([0]) 7
            (some VPN.FailStep.tunInit)).2 99 =
        VPN.disconnectedStatus := by
  have h := c2_connect_failure_rollback VPN.initVpnState ("server1") ([0]) 7
    VPN.FailStep.tunInit (by decide) (by decide)
  exact ⟨h.1, h.2.2.2.2.2.2.2.2.2.2.2 99⟩

/-- C3: a `connect` issued while a connection is already active fails
(`success = false` with the state-conflict message, never a silent
success) and leaves the manager state — hence the existing connection —
completely unchanged, for every requested server id. -/
theorem c3_connect_state_conflict (st : VPN.VpnState) (server_id : String)
    (shared_key : List Nat) (now : Nat) (fail : Option VPN.FailStep)
    (h : st.connected = true) :
    VPN.connect st server_id shared_key now fail =
      ({ success := false, message := "Ya existe una conexión VPN activa",
         vpnIp := none }, st) := by
  simp [VPN.connect, h]

/-- C3 witness: a second `connect` after a successful `connect` to
`server1` fails and changes nothing. -/
theorem c3_connect_state_conflict_witness :
    (VPN.connect (VPN.connect VPN.initVpnState ("server1") ([0]) 5 none).2
        ("server2") ([1]) 9 none).1.success = false ∧
      (VPN.connect (VPN.connect VPN.initVpnState ("server1") ([0]) 5 none).2
          ("server2") ([1]) 9 none).2 =
        (VPN.connect VPN.initVpnState ("server1") ([0]) 5 none).2 := by
  have h := c3_connect_state_conflict
    (VPN.connect VPN.initVpnState ("server1") ([0]) 5 none).2
    ("server2") ([1]) 9 none (by decide)
  exact ⟨by rw [h], by rw [h]⟩

/-- C8: `disconnect` always reports success and leaves the manager
disconnected with `get_status` showing the all-zero snapshot; called
while already disconnected it is a no-op that changes no state. -/
theorem c8_disconnect_resets (st : VPN.VpnState) (now : Nat) :
    (VPN.disconnect st).1.success = true ∧
      (VPN.disconnect st).2.connected = false ∧
      VPN.get_status (VPN.disconnect st).2 now = VPN.disconnectedStatus ∧
      (st.connected = false → (VPN.disconnect st).2 = st) := by
  by_cases h : st.connected = true
  · simp [VPN.disconnect, h, VPN.cleanup, VPN.get_status,
      VPN.disconnectedStatus]
  · simp only [Bool.not_eq_true] at h
    simp [VPN.disconnect, h, VPN.get_status, VPN.disconnectedStatus]

/-- C8 witness: disconnecting the pristine (already disconnected)
manager succeeds and is a no-op. -/
theorem c8_disconnect_resets_witness :
    (VPN.disconnect VPN.initVpnState).1.success = true ∧
      (VPN.disconnect VPN.initVpnState).2 = VPN.initVpnState := by
  have h := c8_disconnect_resets VPN.initVpnState 0
  exact ⟨h.1, h.2.2.2 rfl⟩

/-- C10: for every room id and `limit ≥ 1`, `get_room_messages` returns
exactly `min 3 limit` fabricated sample messages, each carrying the
requested room id, and the result is the same whatever the service state
(no stored history, rooms or sessions are consulted). -/
theorem c10_get_room_messages_fabricated (st : Chat.MsgState)
    (room_id : String) (limit : Nat) (id1 id2 id3 : String) (t1 t2 t3 : Nat)
    (hlim : 1 ≤ limit) :
    (Chat.get_room_messages st room_id limit id1 id2 id3 t1 t2 t3).length =
        min 3 limit ∧
      (∀ m ∈ Chat.get_room_messages st room_id limit id1 id2 id3 t1 t2 t3,
        m.room_id = room_id) ∧
      ∀ st' : Chat.MsgState,
        Chat.get_room_messages st' room_id limit id1 id2 id3 t1 t2 t3 =
          Chat.get_room_messages st room_id limit id1 id2 id3 t1 t2 t3 := by
  refine ⟨?_, ?_, fun st' => rfl⟩
  · simp [Chat.get_room_messages, Chat.sample_messages, Nat.min_comm]
  · intro m hm
    have hm' : m ∈ Chat.sample_messages room_id id1 id2 id3 t1 t2 t3 :=
      List.take_subset _ _ hm
    simp only [Chat.sample_messages, List.mem_cons, List.not_mem_nil,
      or_false] at hm'
    rcases hm' with h | h | h <;> (subst h; rfl)

/-- C10 witness: requesting two messages for room `sala9` from the
pristine service. -/
theorem c10_get_room_messages_fabricated_witness :
    (Chat.get_room_messages (Chat.initService id) ("sala9") 2 ("a") ("b")
          ("c") 1 2 3).length = min 3 2 ∧
      ∀ m ∈ Chat.get_room_messages (Chat.initService id) ("sala9") 2 ("a")
          ("b") ("c") 1 2 3, m.room_id = "sala9" := by
  have h := c10_get_room_messages_fabricated (Chat.initService id) ("sala9")
    2 ("a") ("b") ("c") 1 2 3 (by decide)
  exact ⟨h.1, h.2.1⟩

/-- The keystream XOR preserves the byte count. -/
theorem xorKeystream_length (ks : Nat → Nat) :
    ∀ (i : Nat) (m : List Nat),
      (AEAD.xorKeystream ks i m).length = m.length
| _, [] => rfl
| i, _ :: bs => by
  simp [AEAD.xorKeystream, xorKeystream_length ks (i + 1) bs]

/-- XORing the same keystream twice, from the same stream position,
returns the original bytes. -/
theorem xorKeystream_cancel (ks : Nat → Nat) :
    ∀ (i : Nat) (m : List Nat),
      AEAD.xorKeystream ks i (AEAD.xorKeystream ks i m) = m
| _, [] => rfl
| i, b :: bs => by
  simp only [AEAD.xorKeystream, xorKeystream_cancel ks (i + 1) bs,
    Nat.xor_assoc, Nat.xor_self, Nat.xor_zero]

/-- C9: for every 32-byte key (and every keystream/tag primitive, hence
for the library's AES-GCM), constructing the cipher succeeds, and
decrypting the nonce and ciphertext produced by `encrypt` on plaintext
`m` with the same associated data returns exactly `m`. -/
theorem c9_encrypt_decrypt_roundtrip (g : AEAD.GCMPrim)
    (key nonce m : List Nat) (aad : Option (List Nat))
    (hk : key.length = 32) :
    AEAD.AESGCMCipher.init key = Except.ok ⟨key⟩ ∧
      (AEAD.AESGCMCipher.mk key).decrypt g
          ((AEAD.AESGCMCipher.mk key).encrypt g nonce m aad).nonce
          ((AEAD.AESGCMCipher.mk key).encrypt g nonce m aad).ciphertext
          aad =
        Except.ok m := by
  constructor
  · simp [AEAD.AESGCMCipher.init, hk]
  · unfold AEAD.AESGCMCipher.encrypt AEAD.AESGCMCipher.decrypt
      AEAD.gcm_encrypt AEAD.gcm_decrypt
    have hct : (AEAD.xorKeystream (g.keystream key nonce) 0 m).length
        = m.length := xorKeystream_length _ _ _
    have htag := g.tag_len key nonce aad
      (AEAD.xorKeystream (g.keystream key nonce) 0 m)
    have hlen : (AEAD.xorKeystream (g.keystream key nonce) 0 m ++
        g.tag key nonce aad
          (AEAD.xorKeystream (g.keystream key nonce) 0 m)).length =
        m.length + 16 := by
      simp [List.length_append, hct, htag]
    rw [hlen]
    have hsub : m.length + 16 - 16 =
        (AEAD.xorKeystream (g.keystream key nonce) 0 m).length := by
      omega
    rw [if_neg (by omega), hsub, List.take_left, List.drop_left, if_pos rfl,
      xorKeystream_cancel]

/-- C9 witness: a 32-byte all-sevens key, a trivial keystream/tag
primitive, plaintext `[1, 2, 3]` and no associated data. -/
theorem c9_encrypt_decrypt_roundtrip_witness :
    (AEAD.AESGCMCipher.mk (List.replicate 32 7)).decrypt
        ⟨fun _ _ i => i, fun _ _ _ _ => List.replicate 16 0,
          fun _ _ _ _ => rfl⟩
        ((AEAD.AESGCMCipher.mk (List.replicate 32 7)).encrypt
          ⟨fun _ _ i => i, fun _ _ _ _ => List.replicate 16 0,
            fun _ _ _ _ => rfl⟩
          (List.replicate 12 0) ([1, 2, 3]) none).nonce
        ((AEAD.AESGCMCipher.mk (List.replicate 32 7)).encrypt
          ⟨fun _ _ i => i, fun _ _ _ _ => List.replicate 16 0,
            fun _ _ _ _ => rfl⟩
          (List.replicate 12 0) ([1, 2, 3]) none).ciphertext
        none =
      Except.ok ([1, 2, 3]) :=
  (c9_encrypt_decrypt_roundtrip
    ⟨fun _ _ i => i, fun _ _ _ _ => List.replicate 16 0, fun _ _ _ _ => rfl⟩
    (List.replicate 32 7) (List.replicate 12 0) ([1, 2, 3]) none
    (by simp)).2

/-- C4: whenever the claimed address is rejected by `authenticate_user`'s
address gate (it does not parse, or lies outside the configured VPN
subnet), the call fails with no token and no state change, and the
outcome is identical for any two credential pairs — the credential
checks are never reached. -/
theorem c4_auth_address_gate (vp : String → String → Bool)
    (st : Chat.MsgState) (u1 p1 u2 p2 vpn_ip fresh_session : String)
    (now : Nat) (h : Chat.addressRejected vpn_ip = true) :
    Chat.authenticate_user vp st u1 p1 vpn_ip fresh_session now =
        Chat.authenticate_user vp st u2 p2 vpn_ip fresh_session now ∧
      (Chat.authenticate_user vp st u1 p1 vpn_ip fresh_session now).1.success
          = false ∧
      (Chat.authenticate_user vp st u1 p1 vpn_ip fresh_session now).1.token
          = none ∧
      (Chat.authenticate_user vp st u1 p1 vpn_ip fresh_session now).2 = st := by
  unfold Chat.addressRejected at h
  unfold Chat.authenticate_user
  cases hp : Chat.parseIPv4 vpn_ip with
  | none => simp
  | some ip =>
    rw [hp] at h
    simp only [Bool.not_eq_true'] at h
    simp [h]

/-- C4 witness: the off-subnet address `192.168.1.5` with two different
credential pairs against the pristine service. -/
theorem c4_auth_address_gate_witness :
    Chat.authenticate_user (fun _ _ => true) (Chat.initService id)
        ("usuario1") ("password1") ("192.168.1.5") ("sid1") 0 =
      Chat.authenticate_user (fun _ _ => true) (Chat.initService id)
        ("usuario2") ("wrong") ("192.168.1.5") ("sid1") 0 ∧
    (Chat.authenticate_user (fun _ _ => true) (Chat.initService id)
        ("usuario1") ("password1") ("192.168.1.5") ("sid1") 0).1.success
      = false := by
  have h := c4_auth_address_gate (fun _ _ => true) (Chat.initService id)
    ("usuario1") ("password1") ("usuario2") ("wrong") ("192.168.1.5")
    ("sid1") 0 (by decide)
  exact ⟨h.1, h.2.1⟩

/-- Python dict assignment then lookup of the same key returns the
assigned value. -/
theorem dictSet_lookup_self {α : Type} (l : List (String × α)) (k : String)
    (v : α) : (Chat.dictSet l k v).lookup k = some v := by
  induction l with
  | nil => simp [Chat.dictSet, List.lookup]
  | cons hd tl ih =>
    obtain ⟨k', v'⟩ := hd
    by_cases h : (k' == k) = true
    · simp [Chat.dictSet, h, List.lookup]
    · have h' : (k' == k) = false := by simpa using h
      have h2 : (k == k') = false := by
        simp only [beq_eq_false_iff_ne] at h' ⊢
        exact fun e => h' e.symm
      simp [Chat.dictSet, h', List.lookup, h2, ih]

/-- C5 counterexample: `authenticate_user` succeeds for `usuario1` at
time 1000 and issues a token expiring at `1000 + 8 days`; one second
after that expiry `verify_token` rejects the token, yet the WebSocket
ingress keyed by the session id still accepts session `sid1` — the
session was never invalidated, so an operation of the system accepts the
session after the expiry of its token. -/
theorem c5_counterexample :
    (Chat.authenticate_user
        (fun p hp => hp == String.append ("bcrypt$") p)
        (Chat.initService (fun p => String.append ("bcrypt$") p))
        ("usuario1") ("password1") ("10.8.0.5") ("sid1") 1000).1.success
        = true ∧
      (Chat.authenticate_user
          (fun p hp => hp == String.append ("bcrypt$") p)
          (Chat.initService (fun p => String.append ("bcrypt$") p))
          ("usuario1") ("password1") ("10.8.0.5") ("sid1") 1000).1.token =
        some { sub := "usuario1", session_id := "sid1",
               vpn_ip := "10.8.0.5",
               exp := 1000 + Chat.ACCESS_TOKEN_EXPIRE_MINUTES * 60 } ∧
      Chat.verify_token
          { sub := "usuario1", session_id := "sid1", vpn_ip := "10.8.0.5",
            exp := 1000 + Chat.ACCESS_TOKEN_EXPIRE_MINUTES * 60 }
          (1000 + Chat.ACCESS_TOKEN_EXPIRE_MINUTES * 60 + 1) = none ∧
      Chat.chat_websocket_accepts
          (Chat.authenticate_user
            (fun p hp => hp == String.append ("bcrypt$") p)
            (Chat.initService (fun p => String.append ("bcrypt$") p))
            ("usuario1") ("password1") ("10.8.0.5") ("sid1") 1000).2
          ("sid1") = true := by
  decide

/-- C5 (amended): a session created by a successful `authenticate_user`
is never invalidated: the sessionId-keyed WebSocket ingress accepts it
(its acceptance test consults only the session registry, which no
operation ever prunes, and takes no notion of time), while the issued
token itself is rejected by `verify_token` at any instant after its
expiry.  There is no logout operation. -/
theorem c5_amended_session_outlives_token (vp : String → String → Bool)
    (st : Chat.MsgState) (u p ip s : String) (now : Nat)
    (hs : (Chat.authenticate_user vp st u p ip s now).1.success = true) :
    Chat.chat_websocket_accepts
        (Chat.authenticate_user vp st u p ip s now).2 s = true ∧
      ∀ tok : Chat.Jwt,
        (Chat.authenticate_user vp st u p ip s now).1.token = some tok →
        ∀ later : Nat, tok.exp < later →
          Chat.verify_token tok later = none := by
  have key : (Chat.authenticate_user vp st u p ip s now).2.user_sessions =
      Chat.dictSet st.user_sessions s u := by
    unfold Chat.authenticate_user at hs ⊢
    cases hp : Chat.parseIPv4 ip <;> simp only [hp] at hs ⊢
    · simp at hs
    · rename_i ipv
      by_cases hsub : Chat.inVpnSubnet ipv
      · simp only [hsub, Bool.not_true, Bool.false_eq_true, if_false,
          ite_false] at hs ⊢
        cases hu : st.users_db.lookup u <;> simp only [hu] at hs ⊢
        · simp at hs
        · rename_i ud
          by_cases hvp : vp p ud.hashed_password
          · simp [hvp]
          · simp [hvp] at hs
      · simp [hsub] at hs
  refine ⟨?_, ?_⟩
  · unfold Chat.chat_websocket_accepts
    rw [key, dictSet_lookup_self]
    rfl
  · intro tok _ later hlt
    simp [Chat.verify_token, hlt]

/-- C5 amended witness: the `usuario1` session from the pristine
service; its token is dead one second past expiry while the ingress
still accepts `sid1`. -/
theorem c5_amended_session_outlives_token_witness :
    Chat.chat_websocket_accepts
        (Chat.authenticate_user
          (fun p hp => hp == String.append ("bcrypt$") p)
          (Chat.initService (fun p => String.append ("bcrypt$") p))
          ("usuario1") ("password1") ("10.8.0.5") ("sid1") 1000).2
        ("sid1") = true ∧
      Chat.verify_token
          { sub := "usuario1", session_id := "sid1", vpn_ip := "10.8.0.5",
            exp := 1000 + Chat.ACCESS_TOKEN_EXPIRE_MINUTES * 60 }
          (1000 + Chat.ACCESS_TOKEN_EXPIRE_MINUTES * 60 + 1) = none := by
  have h := c5_amended_session_outlives_token
    (fun p hp => hp == String.append ("bcrypt$") p)
    (Chat.initService (fun p => String.append ("bcrypt$") p))
    ("usuario1") ("password1") ("10.8.0.5") ("sid1") 1000 (by decide)
  exact ⟨h.1, h.2 _ (by decide) _ (by decide)⟩

/-- C6 counterexample: after `register_user("", "pw", "Ghost")` and a
successful `authenticate_user` for that user, session `sid9` exists and
is bound to the identity `""`, the room `general` exists, and `""` is
one of its participants — all three checks of the claim pass — yet
`create_message` returns `None`, because the Python guard
`if not username` also fires on the empty username. -/
theorem c6_counterexample :
    (Chat.authenticate_user
          (fun p hp => hp == String.append ("bcrypt$") p)
          (Chat.register_user (fun p => String.append ("bcrypt$") p)
            (Chat.initService (fun p => String.append ("bcrypt$") p))
            ("") ("pw") ("Ghost")).2
          ("") ("pw") ("10.8.0.5") ("sid9") 50).2.user_sessions.lookup
        ("sid9") = some "" ∧
      ((Chat.authenticate_user
            (fun p hp => hp == String.append ("bcrypt$") p)
            (Chat.register_user (fun p => String.append ("bcrypt$") p)
              (Chat.initService (fun p => String.append ("bcrypt$") p))
              ("") ("pw") ("Ghost")).2
            ("") ("pw") ("10.8.0.5") ("sid9") 50).2.chat_rooms.lookup
          ("general")).map (fun r => r.participants.contains ("")) =
        some true ∧
      Chat.create_message
          (Chat.authenticate_user
            (fun p hp => hp == String.append ("bcrypt$") p)
            (Chat.register_user (fun p => String.append ("bcrypt$") p)
              (Chat.initService (fun p => String.append ("bcrypt$") p))
              ("") ("pw") ("Ghost")).2
            ("") ("pw") ("10.8.0.5") ("sid9") 50).2
          ("sid9") ("general") ("hola") ("mid") 60 = none := by
  decide

/-- C6 (amended): `create_message` returns `None`, changing no state
(the method mutates nothing by construction), whenever the session does
not exist, the room does not exist, the session's identity is not a
participant — or the session is bound to the empty username, which the
Python truthiness guard `if not username` also rejects; when the checks
pass for a non-empty identity it returns a message whose sender is the
session's identity, carrying the fresh id and timestamp, with the sender
as sole acknowledger. -/
theorem c6_amended_create_message (st : Chat.MsgState)
    (session_id room_id content fresh_id : String) (now : Nat) :
    (∀ u room, st.user_sessions.lookup session_id = some u → u ≠ "" →
        st.chat_rooms.lookup room_id = some room → u ∈ room.participants →
        Chat.create_message st session_id room_id content fresh_id now =
          some { id := fresh_id, sender := u, room_id := room_id,
                 content := content, timestamp := now, read_by := [u] }) ∧
      (st.user_sessions.lookup session_id = none →
        Chat.create_message st session_id room_id content fresh_id now
          = none) ∧
      (∀ u, st.user_sessions.lookup session_id = some u →
        st.chat_rooms.lookup room_id = none →
        Chat.create_message st session_id room_id content fresh_id now
          = none) ∧
      (∀ u room, st.user_sessions.lookup session_id = some u →
        st.chat_rooms.lookup room_id = some room →
        u ∉ room.participants →
        Chat.create_message st session_id room_id content fresh_id now
          = none) := by
  refine ⟨?_, ?_, ?_, ?_⟩
  · intro u room hu hne hr hmem
    simp [Chat.create_message, hu, hne, hr, hmem]
  · intro hu
    simp [Chat.create_message, hu]
  · intro u hu hr
    simp [Chat.create_message, hu, hr]
  · intro u room hu hr hmem
    by_cases hne : u = ""
    · simp [Chat.create_message, hu, hne]
    · simp [Chat.create_message, hu, hne, hr, hmem]

/-- C6 amended witness: `usuario1`, authenticated into session `sid1`,
posts to `general` and gets the expected message back; the unknown
session `nope` gets `None`. -/
theorem c6_amended_create_message_witness :
    Chat.create_message
        (Chat.authenticate_user
          (fun p hp => hp == String.append ("bcrypt$") p)
          (Chat.initService (fun p => String.append ("bcrypt$") p))
          ("usuario1") ("password1") ("10.8.0.5") ("sid1") 1000).2
        ("sid1") ("general") ("hola") ("mid") 60 =
      some { id := "mid", sender := "usuario1", room_id := "general",
             content := "hola", timestamp := 60,
             read_by := ["usuario1"] } ∧
    Chat.create_message
        (Chat.authenticate_user
          (fun p hp => hp == String.append ("bcrypt$") p)
          (Chat.initService (fun p => String.append ("bcrypt$") p))
          ("usuario1") ("password1") ("10.8.0.5") ("sid1") 1000).2
        ("nope") ("general") ("hola") ("mid") 60 = none := by
  refine ⟨?_, ?_⟩
  · exact (c6_amended_create_message
      (Chat.authenticate_user
        (fun p hp => hp == String.append ("bcrypt$") p)
        (Chat.initService (fun p => String.append ("bcrypt$") p))
        ("usuario1") ("password1") ("10.8.0.5") ("sid1") 1000).2
      ("sid1") ("general") ("hola") ("mid") 60).1 "usuario1"
      Chat.default_room (by decide) (by decide) (by decide) (by decide)
  · exact (c6_amended_create_message
      (Chat.authenticate_user
        (fun p hp => hp == String.append ("bcrypt$") p)
        (Chat.initService (fun p => String.append ("bcrypt$") p))
        ("usuario1") ("password1") ("10.8.0.5") ("sid1") 1000).2
      ("nope") ("general") ("hola") ("mid") 60).2.1 (by decide)

/-- C7: a session id receives the broadcast exactly when it is a live
connection (a key of `active_connections`) bound by the session registry
to a participant of the message's room and is not the excluded session,
and its own sink does not raise; in particular a raising sink (`failing`)
removes only its own delivery and cannot block any other recipient. -/
theorem c7_broadcast_delivery (st : Chat.MsgState) (msg : Chat.MessageDict)
    (exclude : Option String) (failing : String → Bool) (sid : String) :
    sid ∈ Chat.broadcast_to_room st msg exclude failing ↔
      ((∃ room, st.chat_rooms.lookup msg.room_id = some room ∧
          ∃ u, u ∈ room.participants ∧ (sid, u) ∈ st.user_sessions ∧
            st.active_connections.contains sid = true ∧
            exclude ≠ some sid) ∧
        failing sid = false) := by
  unfold Chat.broadcast_to_room
  cases h : st.chat_rooms.lookup msg.room_id with
  | none => simp
  | some room =>
    simp [List.mem_filter, List.mem_flatten, List.mem_map,
      Bool.and_eq_true, beq_iff_eq, Bool.not_eq_true',
      beq_eq_false_iff_ne, Prod.exists]
    constructor
    · rintro ⟨a, ha, ⟨x, hx, ⟨rfl, hact⟩, hexc⟩, hfail⟩
      exact ⟨⟨x, ha, hx, hact, fun e => hexc e.symm⟩, hfail⟩
    · rintro ⟨⟨u, hu, hmem, hact, hexc⟩, hfail⟩
      exact ⟨u, hu, ⟨u, hmem, ⟨rfl, hact⟩, fun e => hexc e.symm⟩, hfail⟩
